import Mathlib

/-!
Verification of the run-loop module `p5/sketch/base.py` (the sketch runtime of
the p5 package) against its natural-language specification.

The module is shallowly embedded: the process-wide mutable globals
(`looping`, `redraw`, `setup_done`, `target_frame_rate`, `time_since_last_frame`,
`builtins.frame_count`, `builtins.frame_rate`, `handler_queue`) become the fields
of an explicit `State` record, and each Python function becomes a Lean function
on `State`.  Calls into collaborators (the renderer's `pre_render`/`post_render`,
the user hooks `setup`/`draw`, queued event-handler invocations, `pyglet` window
methods, `pyglet.app.exit` and `builtins.exit`) are recorded in an output trace,
since the claims are about which collaborator calls happen and in which order.
Python floats are idealized as rationals (`ℚ`); Python's `int(...)` conversion,
which truncates toward zero, is `Int.tdiv` on numerator and denominator.
-/

namespace P5

/-- Value held by the module-level global name `redraw`.  At import time the
name is first bound to `False` (line 84 of `base.py`) and then rebound to the
`redraw` function object by the `def redraw():` statement (line 131), so after
module initialization the global holds a function object, which is truthy. -/
inductive RedrawVal where
  | fnObj
  | bool (b : Bool)
deriving DecidableEq

/-- Python truthiness of the value stored in the global `redraw`, as tested by
`if looping or redraw:` in `update` (line 230): a function object is truthy,
a `bool` is itself. -/
def RedrawVal.truthy : RedrawVal → Bool
  | RedrawVal.fnObj => true
  | RedrawVal.bool b => b

/-- The module's mutable run-loop globals, gathered into one record.
`frame_count` and `frame_rate` are the `builtins` fields of the same names;
`handler_queue` holds (callback, event-payload) pairs, both represented by
opaque identifiers. -/
structure State where
  frame_count : ℤ
  looping : Bool
  redraw : RedrawVal
  setup_done : Bool
  target_frame_rate : ℚ
  time_since_last_frame : ℚ
  frame_rate : ℤ
  handler_queue : List (Nat × Nat)
deriving DecidableEq

/-- One observable collaborator call made during a tick of `update`:
the renderer bracket, the user hooks, and a queued handler invocation
`function(event)`. -/
inductive Call where
  | preRender
  | setupCall
  | drawCall
  | handlerCall (f : Nat) (e : Nat)
  | postRender
deriving DecidableEq

/-- Python's `int(q)` on a real number truncates toward zero; on an exact
rational this is truncating division of the numerator by the denominator. -/
def pyInt (q : ℚ) : ℤ := q.num.tdiv q.den

/-- The module-level initial values: `frame_count = -1`, `frame_rate = 30`
(lines 36-37), `looping = True`, `setup_done = False`,
`target_frame_rate = 60.0`, `time_since_last_frame = 0.0` (lines 83-87),
an empty `handler_queue` (line 81), and the global `redraw` left holding the
function object bound by `def redraw():` (lines 84 and 131). -/
def initState : State where
  frame_count := -1
  looping := true
  redraw := RedrawVal.fnObj
  setup_done := false
  target_frame_rate := 60
  time_since_last_frame := 0
  frame_rate := 30
  handler_queue := []

/-- Embedding of `update(dt)` (lines 214-239).  Returns the new state together
with the trace of collaborator calls made during the tick, in order.  Mirrors
the source: report `frame_rate = int(1/(dt+0.0001))`, accumulate
`time_since_last_frame += dt`, compute
`correct_frame_rate = time_since_last_frame > 1.0/target_frame_rate`,
call `renderer.pre_render()`, then either run setup (first tick), or on an
eligible tick (`correct_frame_rate or frame_count == 0`) optionally run draw
(`if looping or redraw`), drain the handler queue and reset the accumulator,
and finally call `renderer.post_render()`. -/
def update (st : State) (dt : ℚ) : State × List Call :=
  if st.setup_done = false then
    ({ st with
        frame_rate := pyInt (1 / (dt + 1 / 10000)),
        time_since_last_frame := st.time_since_last_frame + dt,
        frame_count := st.frame_count + 1,
        setup_done := true },
     [Call.preRender, Call.setupCall, Call.postRender])
  else if st.time_since_last_frame + dt > 1 / st.target_frame_rate ∨ st.frame_count = 0 then
    if st.looping = true ∨ st.redraw.truthy = true then
      ({ st with
          frame_rate := pyInt (1 / (dt + 1 / 10000)),
          frame_count := st.frame_count + 1,
          redraw := RedrawVal.bool false,
          handler_queue := [],
          time_since_last_frame := 0 },
       Call.preRender :: Call.drawCall ::
         (st.handler_queue.map (fun p => Call.handlerCall p.1 p.2) ++ [Call.postRender]))
    else
      ({ st with
          frame_rate := pyInt (1 / (dt + 1 / 10000)),
          handler_queue := [],
          time_since_last_frame := 0 },
       Call.preRender ::
         (st.handler_queue.map (fun p => Call.handlerCall p.1 p.2) ++ [Call.postRender]))
  else
    ({ st with
        frame_rate := pyInt (1 / (dt + 1 / 10000)),
        time_since_last_frame := st.time_since_last_frame + dt },
     [Call.preRender, Call.postRender])

/-- Embedding of `no_loop()` (lines 108-119): `looping = False`. -/
def no_loop (st : State) : State := { st with looping := false }

/-- Embedding of `loop()` (lines 121-129): `looping = True`. -/
def loop (st : State) : State := { st with looping := true }

/-- Embedding of the `redraw()` function body (lines 131-140):
`if not looping: redraw = True`. -/
def redraw (st : State) : State :=
  if st.looping = false then { st with redraw := RedrawVal.bool true } else st

/-- Embedding of `set_frame_rate(fm)` (lines 245-247):
`target_frame_rate = max(1, int(fm))`. -/
def set_frame_rate (st : State) (fm : ℚ) : State :=
  { st with target_frame_rate := ((max 1 (pyInt fm) : ℤ) : ℚ) }

/-- Modelled from the spec: the platform's input dispatch appends
`(function, event)` pairs to `handler_queue` in arrival order (spec section 3,
EventQueue: "insertion order = arrival order, FIFO").  The appending side lives
outside `base.py`; only the drain (in `update`) is in this file. -/
def enqueue (st : State) (f e : Nat) : State :=
  { st with handler_queue := st.handler_queue ++ [(f, e)] }

/-- One operation on the runtime state: a timer tick or one of the synchronous
controls, including a platform event arrival. -/
inductive Op where
  | updateOp (dt : ℚ)
  | noLoopOp
  | loopOp
  | redrawOp
  | setFrameRateOp (fm : ℚ)
  | enqueueOp (f e : Nat)

/-- Apply one operation; only `update` produces collaborator calls. -/
def step (st : State) : Op → State × List Call
  | Op.updateOp dt => update st dt
  | Op.noLoopOp => (no_loop st, [])
  | Op.loopOp => (loop st, [])
  | Op.redrawOp => (redraw st, [])
  | Op.setFrameRateOp fm => (set_frame_rate st fm, [])
  | Op.enqueueOp f e => (enqueue st f e, [])

/-- Run a sequence of operations, concatenating the call traces. -/
def runOps (st : State) : List Op → State × List Call
  | [] => (st, [])
  | op :: rest =>
    let s1 := step st op
    let s2 := runOps s1.1 rest
    (s2.1, s1.2 ++ s2.2)

/-- Number of `setupCall` entries in a trace. -/
def setupCalls : List Call → Nat
  | [] => 0
  | Call.setupCall :: rest => setupCalls rest + 1
  | _ :: rest => setupCalls rest

/-- Number of `drawCall` entries in a trace. -/
def drawCalls : List Call → Nat
  | [] => 0
  | Call.drawCall :: rest => drawCalls rest + 1
  | _ :: rest => drawCalls rest

/-- Number of `preRender` entries in a trace. -/
def preRenders : List Call → Nat
  | [] => 0
  | Call.preRender :: rest => preRenders rest + 1
  | _ :: rest => preRenders rest

/-- Number of `postRender` entries in a trace. -/
def postRenders : List Call → Nat
  | [] => 0
  | Call.postRender :: rest => postRenders rest + 1
  | _ :: rest => postRenders rest

/-- Number of user-hook invocations (setup or draw) in a trace. -/
def hookCalls (l : List Call) : Nat := setupCalls l + drawCalls l

/-- The subsequence of queued-handler invocations in a trace, in order. -/
def handlerCallsOf : List Call → List Call
  | [] => []
  | Call.handlerCall f e :: rest => Call.handlerCall f e :: handlerCallsOf rest
  | _ :: rest => handlerCallsOf rest

/-- The `pyglet` window cursor-name constants used as the values of
`cursor_map` in `cursor` (lines 180-187):
`window.CURSOR_DEFAULT`, `window.CURSOR_CROSSHAIR`, `window.CURSOR_HAND`,
`window.CURSOR_SIZE`, `window.CURSOR_TEXT`, `window.CURSOR_WAIT`.
They are distinct opaque platform constants, none of which is the Python
string `'ARROW'`. -/
inductive SysCursor where
  | CURSOR_DEFAULT
  | CURSOR_CROSSHAIR
  | CURSOR_HAND
  | CURSOR_SIZE
  | CURSOR_TEXT
  | CURSOR_WAIT
deriving DecidableEq

/-- Argument passed to `window.get_system_mouse_cursor`: either one of the
window's cursor constants (a `cursor_map` value) or a raw Python string
(the default `'ARROW'` supplied to `dict.get`). -/
abbrev CursorArg := Sum SysCursor String

/-- The dictionary literal `cursor_map` inside `cursor` (lines 180-187). -/
def cursor_map (cursor_type : String) : Option SysCursor :=
  if cursor_type = "ARROW" then some SysCursor.CURSOR_DEFAULT
  else if cursor_type = "CROSS" then some SysCursor.CURSOR_CROSSHAIR
  else if cursor_type = "HAND" then some SysCursor.CURSOR_HAND
  else if cursor_type = "MOVE" then some SysCursor.CURSOR_SIZE
  else if cursor_type = "TEXT" then some SysCursor.CURSOR_TEXT
  else if cursor_type = "WAIT" then some SysCursor.CURSOR_WAIT
  else none

/-- One call made by `cursor` to the window collaborator.  The cursor object
installed by `set_mouse_cursor` is whatever `get_system_mouse_cursor` returned
for its argument, so it is recorded by that argument. -/
inductive WindowCall where
  | get_system_mouse_cursor (arg : CursorArg)
  | set_mouse_visible (visible : Bool)
  | set_mouse_cursor (resource_for : CursorArg)
deriving DecidableEq

/-- Embedding of `cursor(cursor_type)` (lines 171-191) as its trace of window
calls: `selected_cursor = cursor_map.get(cursor_type, 'ARROW')` (note: the
`dict.get` default is the string `'ARROW'`, not `cursor_map['ARROW']`), then
`cursor = window.get_system_mouse_cursor(selected_cursor)`,
`window.set_mouse_visible(True)`, `window.set_mouse_cursor(cursor)`. -/
def cursor (cursor_type : String) : List WindowCall :=
  let selected_cursor : CursorArg :=
    match cursor_map cursor_type with
    | some r => Sum.inl r
    | none => Sum.inr "ARROW"
  [WindowCall.get_system_mouse_cursor selected_cursor,
   WindowCall.set_mouse_visible true,
   WindowCall.set_mouse_cursor selected_cursor]

/-- One call made by `exit` (lines 193-208): the platform shutdown request
`pyglet.app.exit()` or process termination `builtins.exit(*args, **kwargs)`
with its positional and keyword arguments. -/
inductive ExitCall where
  | pyglet_app_exit
  | builtins_exit (args : List Nat) (kwargs : List (String × Nat))
deriving DecidableEq

/-- Embedding of `exit(*args, **kwargs)` (lines 193-208) as its trace of
collaborator calls, in order: `pyglet.app.exit()` then
`builtins.exit(*args, **kwargs)`. -/
def exit (args : List Nat) (kwargs : List (String × Nat)) : List ExitCall :=
  [ExitCall.pyglet_app_exit, ExitCall.builtins_exit args kwargs]

/-- A Python function object as far as `fix_handler_interface` can observe it:
its declared positional-parameter count `func.__code__.co_argcount` and its
call behaviour, a map from the positional-argument list to a result. -/
structure PyFunc where
  argcount : Nat
  impl : List Nat → Nat

/-- Embedding of `fix_handler_interface(func)` (lines 249-263): if
`func.__code__.co_argcount == 0`, return the `fixed_func` wrapper, which
accepts any arguments (`*args, **kwargs`, so its own co_argcount is 0) and
calls `func()` with zero arguments, returning its result; otherwise return
`func` itself. -/
def fix_handler_interface (func : PyFunc) : PyFunc :=
  if func.argcount = 0 then
    { argcount := 0, impl := fun _ => func.impl [] }
  else
    func

/-- The `handler_names` list (lines 74-77). -/
def handler_names : List String :=
  ["key_press", "key_pressed", "key_released", "key_typed", "mouse_clicked",
   "mouse_dragged", "mouse_moved", "mouse_pressed", "mouse_released",
   "mouse_wheel"]

/-- Embedding of the handler-registration loop in `run` (lines 293-296):
for each name in `handler_names`, if the host program (`__main__`, here the
map `main`) defines a function of that name, register
`fix_handler_interface` of it, overwriting the current registry entry;
other entries are left unchanged. -/
def register_handlers (main : String → Option PyFunc) (handlers : String → PyFunc) :
    String → PyFunc :=
  fun name =>
    if name ∈ handler_names then
      match main name with
      | some g => fix_handler_interface g
      | none => handlers name
    else handlers name

/-! Helper lemmas about the embedding. -/

theorem pyInt_eq (q : ℚ) : pyInt q = if 0 ≤ q then ⌊q⌋ else ⌈q⌉ := by
  by_cases h : 0 ≤ q
  · rw [if_pos h, Rat.floor_def, pyInt,
      Int.tdiv_eq_ediv (Rat.num_nonneg.mpr h) (by positivity)]
  · rw [if_neg h]
    have hq : 0 ≤ -q := by push_neg at h; linarith
    have h1 : pyInt q = -pyInt (-q) := by
      simp [pyInt, Int.neg_tdiv]
    have h2 : pyInt (-q) = ⌊-q⌋ := by
      rw [Rat.floor_def, pyInt,
        Int.tdiv_eq_ediv (Rat.num_nonneg.mpr hq) (by positivity)]
    rw [h1, h2, Int.floor_neg, neg_neg]

theorem update_setup (st : State) (dt : ℚ) (h : st.setup_done = false) :
    update st dt =
      ({ st with
          frame_rate := pyInt (1 / (dt + 1 / 10000)),
          time_since_last_frame := st.time_since_last_frame + dt,
          frame_count := st.frame_count + 1,
          setup_done := true },
       [Call.preRender, Call.setupCall, Call.postRender]) := by
  rw [update, if_pos h]

theorem update_draw (st : State) (dt : ℚ) (h1 : st.setup_done = true)
    (h2 : st.time_since_last_frame + dt > 1 / st.target_frame_rate ∨ st.frame_count = 0)
    (h3 : st.looping = true ∨ st.redraw.truthy = true) :
    update st dt =
      ({ st with
          frame_rate := pyInt (1 / (dt + 1 / 10000)),
          frame_count := st.frame_count + 1,
          redraw := RedrawVal.bool false,
          handler_queue := [],
          time_since_last_frame := 0 },
       Call.preRender :: Call.drawCall ::
         (st.handler_queue.map (fun p => Call.handlerCall p.1 p.2) ++ [Call.postRender])) := by
  rw [update, if_neg (by simp [h1]), if_pos h2, if_pos h3]

theorem update_nodraw (st : State) (dt : ℚ) (h1 : st.setup_done = true)
    (h2 : st.time_since_last_frame + dt > 1 / st.target_frame_rate ∨ st.frame_count = 0)
    (h3 : ¬(st.looping = true ∨ st.redraw.truthy = true)) :
    update st dt =
      ({ st with
          frame_rate := pyInt (1 / (dt + 1 / 10000)),
          handler_queue := [],
          time_since_last_frame := 0 },
       Call.preRender ::
         (st.handler_queue.map (fun p => Call.handlerCall p.1 p.2) ++ [Call.postRender])) := by
  rw [update, if_neg (by simp [h1]), if_pos h2, if_neg h3]

theorem update_skip (st : State) (dt : ℚ) (h1 : st.setup_done = true)
    (h2 : ¬(st.time_since_last_frame + dt > 1 / st.target_frame_rate ∨ st.frame_count = 0)) :
    update st dt =
      ({ st with
          frame_rate := pyInt (1 / (dt + 1 / 10000)),
          time_since_last_frame := st.time_since_last_frame + dt },
       [Call.preRender, Call.postRender]) := by
  rw [update, if_neg (by simp [h1]), if_neg h2]

theorem setupCalls_append (l1 l2 : List Call) :
    setupCalls (l1 ++ l2) = setupCalls l1 + setupCalls l2 := by
  induction l1 with
  | nil => simp [setupCalls]
  | cons hd tl ih => cases hd <;> simp [setupCalls, ih] <;> omega

theorem drawCalls_append (l1 l2 : List Call) :
    drawCalls (l1 ++ l2) = drawCalls l1 + drawCalls l2 := by
  induction l1 with
  | nil => simp [drawCalls]
  | cons hd tl ih => cases hd <;> simp [drawCalls, ih] <;> omega

theorem preRenders_append (l1 l2 : List Call) :
    preRenders (l1 ++ l2) = preRenders l1 + preRenders l2 := by
  induction l1 with
  | nil => simp [preRenders]
  | cons hd tl ih => cases hd <;> simp [preRenders, ih] <;> omega

theorem postRenders_append (l1 l2 : List Call) :
    postRenders (l1 ++ l2) = postRenders l1 + postRenders l2 := by
  induction l1 with
  | nil => simp [postRenders]
  | cons hd tl ih => cases hd <;> simp [postRenders, ih] <;> omega

theorem setupCalls_map (q : List (Nat × Nat)) :
    setupCalls (q.map (fun p => Call.handlerCall p.1 p.2)) = 0 := by
  induction q with
  | nil => rfl
  | cons hd tl ih => simpa [setupCalls] using ih

theorem drawCalls_map (q : List (Nat × Nat)) :
    drawCalls (q.map (fun p => Call.handlerCall p.1 p.2)) = 0 := by
  induction q with
  | nil => rfl
  | cons hd tl ih => simpa [drawCalls] using ih

theorem preRenders_map (q : List (Nat × Nat)) :
    preRenders (q.map (fun p => Call.handlerCall p.1 p.2)) = 0 := by
  induction q with
  | nil => rfl
  | cons hd tl ih => simpa [preRenders] using ih

theorem postRenders_map (q : List (Nat × Nat)) :
    postRenders (q.map (fun p => Call.handlerCall p.1 p.2)) = 0 := by
  induction q with
  | nil => rfl
  | cons hd tl ih => simpa [postRenders] using ih

theorem handlerCallsOf_append (l1 l2 : List Call) :
    handlerCallsOf (l1 ++ l2) = handlerCallsOf l1 ++ handlerCallsOf l2 := by
  induction l1 with
  | nil => simp [handlerCallsOf]
  | cons hd tl ih => cases hd <;> simp [handlerCallsOf, ih]

theorem handlerCallsOf_map (q : List (Nat × Nat)) :
    handlerCallsOf (q.map (fun p => Call.handlerCall p.1 p.2)) =
      q.map (fun p => Call.handlerCall p.1 p.2) := by
  induction q with
  | nil => rfl
  | cons hd tl ih => simpa [handlerCallsOf] using ih

theorem update_setup_done (st : State) (dt : ℚ) : (update st dt).1.setup_done = true := by
  rw [update]
  split_ifs with h1 h2 h3 <;> simp_all

theorem update_looping (st : State) (dt : ℚ) : (update st dt).1.looping = st.looping := by
  rw [update]
  split_ifs <;> rfl

theorem drawCalls_update_of_stopped (st : State) (dt : ℚ) (h1 : st.setup_done = true)
    (h2 : st.looping = false) (h3 : st.redraw = RedrawVal.bool false) :
    drawCalls (update st dt).2 = 0 := by
  by_cases hel : st.time_since_last_frame + dt > 1 / st.target_frame_rate ∨ st.frame_count = 0
  · rw [update_nodraw st dt h1 hel (by simp [h2, h3, RedrawVal.truthy])]
    simp [drawCalls, drawCalls_append, drawCalls_map]
  · rw [update_skip st dt h1 hel]
    rfl

/-! Claim C1: behaviour of `set_frame_rate`. -/

/-- C1 counterexample: the claim says `set_frame_rate(45.7)` stores
`max(1, round(45.7)) = 46`, but the code stores `max(1, int(45.7)) = 45`
(Python `int` truncates toward zero, it does not round). -/
theorem set_frame_rate_round_counterexample :
    (set_frame_rate initState (457 / 10)).target_frame_rate ≠
      ((max 1 (round ((457 : ℚ) / 10)) : ℤ) : ℚ) := by
  have hL : (set_frame_rate initState (457 / 10)).target_frame_rate = 45 := by
    simp only [set_frame_rate, pyInt_eq]
    norm_num
  have hR : ((max 1 (round ((457 : ℚ) / 10)) : ℤ) : ℚ) = 46 := by
    rw [round_eq]
    norm_num
  rw [hL, hR]
  norm_num

/-- C1 (amended): for every argument `fm`, `set_frame_rate(fm)` sets the target
frame rate to `max(1, int(fm))`, where `int` truncates toward zero (floor for
nonnegative arguments, ceiling for negative ones); the result is always at
least 1; in particular `set_frame_rate(0)` yields 1, `set_frame_rate(-5)`
yields 1, and `set_frame_rate(45.7)` yields 45. -/
theorem set_frame_rate_spec (st : State) (fm : ℚ) :
    (set_frame_rate st fm).target_frame_rate =
      ((max 1 (if 0 ≤ fm then ⌊fm⌋ else ⌈fm⌉) : ℤ) : ℚ) ∧
    (1 : ℚ) ≤ (set_frame_rate st fm).target_frame_rate ∧
    (set_frame_rate st 0).target_frame_rate = 1 ∧
    (set_frame_rate st (-5)).target_frame_rate = 1 ∧
    (set_frame_rate st (457 / 10)).target_frame_rate = 45 := by
  refine ⟨by rw [set_frame_rate, pyInt_eq], ?_, ?_, ?_, ?_⟩
  · have h1 : (1 : ℤ) ≤ max 1 (pyInt fm) := le_max_left 1 (pyInt fm)
    simp only [set_frame_rate]
    exact_mod_cast h1
  · simp only [set_frame_rate, pyInt_eq]
    norm_num
  · have hc : ⌈(-5 : ℚ)⌉ = -5 := by
      rw [show ((-5 : ℚ)) = ((-5 : ℤ) : ℚ) by norm_num]
      exact Int.ceil_intCast (-5)
    simp only [set_frame_rate, pyInt_eq]
    rw [if_neg (by norm_num), hc]
    norm_num
  · simp only [set_frame_rate, pyInt_eq]
    norm_num

/-- Witness for `set_frame_rate_spec` at a concrete state and argument. -/
theorem set_frame_rate_spec_witness :
    (set_frame_rate initState 0).target_frame_rate = 1 ∧
    (set_frame_rate initState (457 / 10)).target_frame_rate = 45 :=
  ⟨(set_frame_rate_spec initState 0).2.2.1, (set_frame_rate_spec initState 0).2.2.2.2⟩

/-! Claim C2: behaviour of `cursor` on an unknown cursor kind. -/

/-- C2 (divergence evidence): `cursor("BOGUS")` does not request the same
platform cursor resource as `cursor("ARROW")`.  The fallback
`cursor_map.get(cursor_type, 'ARROW')` yields the raw string `'ARROW'` (the
dictionary key), not the mapped platform constant `window.CURSOR_DEFAULT`, so
`window.get_system_mouse_cursor` receives a different argument.  The
`set_mouse_visible(True)` call is present in every trace of the embedded
function (in the real code an unknown kind makes `get_system_mouse_cursor`
raise before visibility is ever set). -/
theorem cursor_bogus_divergence :
    cursor "BOGUS" ≠ cursor "ARROW" ∧
    cursor "BOGUS" =
      [WindowCall.get_system_mouse_cursor (Sum.inr "ARROW"),
       WindowCall.set_mouse_visible true,
       WindowCall.set_mouse_cursor (Sum.inr "ARROW")] ∧
    cursor "ARROW" =
      [WindowCall.get_system_mouse_cursor (Sum.inl SysCursor.CURSOR_DEFAULT),
       WindowCall.set_mouse_visible true,
       WindowCall.set_mouse_cursor (Sum.inl SysCursor.CURSOR_DEFAULT)] ∧
    (∀ s : String, WindowCall.set_mouse_visible true ∈ cursor s) := by
  refine ⟨by decide, by decide, by decide, fun s => ?_⟩
  simp [cursor]

/-- Witness for `cursor_bogus_divergence` at a concrete kind. -/
theorem cursor_bogus_divergence_witness :
    WindowCall.set_mouse_visible true ∈ cursor "HAND" :=
  cursor_bogus_divergence.2.2.2 "HAND"

/-! Claim C3: `redraw` forces exactly one draw while not looping. -/

/-- C3: while `looping` is false, a call to `redraw()` sets the pending-redraw
slot; once setup has run, the next eligible tick (accumulated time above the
frame interval, or `frame_count == 0`) invokes draw exactly once and clears the
slot, and any following tick does not invoke draw again; a call to `redraw()`
while `looping` is true changes nothing. -/
theorem redraw_spec (st : State) :
    (st.looping = true → redraw st = st) ∧
    (st.looping = false →
      (redraw st).redraw = RedrawVal.bool true ∧
      (st.setup_done = true →
        ∀ dt : ℚ,
          (st.time_since_last_frame + dt > 1 / st.target_frame_rate ∨ st.frame_count = 0) →
          drawCalls (update (redraw st) dt).2 = 1 ∧
          (update (redraw st) dt).1.redraw = RedrawVal.bool false ∧
          ∀ dt2 : ℚ, drawCalls (update (update (redraw st) dt).1 dt2).2 = 0)) := by
  constructor
  · intro h
    rw [redraw, if_neg (by simp [h])]
  · intro h
    have hred : redraw st = { st with redraw := RedrawVal.bool true } := by
      rw [redraw, if_pos h]
    refine ⟨by rw [hred], fun hsd dt hel => ?_⟩
    rw [hred, update_draw { st with redraw := RedrawVal.bool true } dt hsd hel (Or.inr rfl)]
    refine ⟨by simp [drawCalls, drawCalls_append, drawCalls_map], rfl, fun dt2 => ?_⟩
    exact drawCalls_update_of_stopped _ dt2 hsd h rfl

/-- A concrete state with looping disabled and setup done. -/
def stoppedState : State where
  frame_count := 5
  looping := false
  redraw := RedrawVal.bool false
  setup_done := true
  target_frame_rate := 1
  time_since_last_frame := 0
  frame_rate := 30
  handler_queue := []

/-- A concrete state with looping enabled. -/
def loopingState : State where
  frame_count := 0
  looping := true
  redraw := RedrawVal.bool false
  setup_done := false
  target_frame_rate := 60
  time_since_last_frame := 0
  frame_rate := 30
  handler_queue := []

/-- Witness for `redraw_spec` at concrete inputs. -/
theorem redraw_spec_witness :
    redraw loopingState = loopingState ∧
    (redraw stoppedState).redraw = RedrawVal.bool true ∧
    drawCalls (update (redraw stoppedState) 2).2 = 1 ∧
    (update (redraw stoppedState) 2).1.redraw = RedrawVal.bool false ∧
    drawCalls (update (update (redraw stoppedState) 2).1 2).2 = 0 := by
  have h1 := (redraw_spec loopingState).1 rfl
  have h2 := (redraw_spec stoppedState).2 rfl
  have h3 := h2.2 rfl 2 (Or.inl (by norm_num [stoppedState]))
  exact ⟨h1, h2.1, h3.1, h3.2.1, h3.2.2 2⟩

/-! Claim C4: setup runs exactly once, on the very first tick. -/

theorem setupCalls_update_of_done (st : State) (dt : ℚ) (h : st.setup_done = true) :
    setupCalls (update st dt).2 = 0 := by
  by_cases hel : st.time_since_last_frame + dt > 1 / st.target_frame_rate ∨ st.frame_count = 0
  · by_cases hdr : st.looping = true ∨ st.redraw.truthy = true
    · rw [update_draw st dt h hel hdr]
      simp [setupCalls, setupCalls_append, setupCalls_map]
    · rw [update_nodraw st dt h hel hdr]
      simp [setupCalls, setupCalls_append, setupCalls_map]
  · rw [update_skip st dt h hel]
    rfl

theorem redraw_setup_done (st : State) : (redraw st).setup_done = st.setup_done := by
  rw [redraw]
  split_ifs <;> rfl

theorem step_setup_done (st : State) (op : Op) (h : st.setup_done = true) :
    (step st op).1.setup_done = true := by
  cases op with
  | updateOp dt => exact update_setup_done st dt
  | noLoopOp => exact h
  | loopOp => exact h
  | redrawOp => rw [show (step st Op.redrawOp).1 = redraw st from rfl, redraw_setup_done]; exact h
  | setFrameRateOp fm => exact h
  | enqueueOp f e => exact h

theorem setupCalls_step_of_done (st : State) (op : Op) (h : st.setup_done = true) :
    setupCalls (step st op).2 = 0 := by
  cases op with
  | updateOp dt => exact setupCalls_update_of_done st dt h
  | noLoopOp => rfl
  | loopOp => rfl
  | redrawOp => rfl
  | setFrameRateOp fm => rfl
  | enqueueOp f e => rfl

theorem setupCalls_runOps_of_done (st : State) (ops : List Op) (h : st.setup_done = true) :
    setupCalls (runOps st ops).2 = 0 := by
  induction ops generalizing st with
  | nil => rfl
  | cons op rest ih =>
    simp only [runOps]
    rw [setupCalls_append, setupCalls_step_of_done st op h,
      ih (step st op).1 (step_setup_done st op h)]

/-- C4: for every sequence of `update(dt)` calls starting from the module's
initial state, the setup hook runs exactly once, on the very first call, which
increments `frame_count` from -1 to 0, the draw hook is not invoked on that
same tick, and no later `update` call ever invokes setup again. -/
theorem setup_runs_once (dt : ℚ) (dts : List ℚ) :
    initState.frame_count = -1 ∧
    setupCalls (update initState dt).2 = 1 ∧
    drawCalls (update initState dt).2 = 0 ∧
    (update initState dt).1.frame_count = 0 ∧
    setupCalls (runOps (update initState dt).1 (dts.map Op.updateOp)).2 = 0 := by
  rw [update_setup initState dt rfl]
  exact ⟨rfl, rfl, rfl, rfl, setupCalls_runOps_of_done _ _ rfl⟩

/-- Witness for `setup_runs_once` at concrete tick durations. -/
theorem setup_runs_once_witness :
    setupCalls (update initState 1).2 = 1 ∧
    drawCalls (update initState 1).2 = 0 ∧
    (update initState 1).1.frame_count = 0 ∧
    setupCalls (runOps (update initState 1).1 ([1, 1].map Op.updateOp)).2 = 0 :=
  ⟨(setup_runs_once 1 [1, 1]).2.1, (setup_runs_once 1 [1, 1]).2.2.1,
   (setup_runs_once 1 [1, 1]).2.2.2.1, (setup_runs_once 1 [1, 1]).2.2.2.2⟩

/-! Claim C5: `frame_count` accounting. -/

theorem hookCalls_append (l1 l2 : List Call) :
    hookCalls (l1 ++ l2) = hookCalls l1 + hookCalls l2 := by
  simp only [hookCalls, setupCalls_append, drawCalls_append]
  omega

theorem step_frame_count (st : State) (op : Op) :
    (step st op).1.frame_count = st.frame_count + (hookCalls (step st op).2 : ℤ) := by
  cases op with
  | updateOp dt =>
    show (update st dt).1.frame_count = st.frame_count + (hookCalls (update st dt).2 : ℤ)
    by_cases h1 : st.setup_done = false
    · rw [update_setup st dt h1]
      simp [hookCalls, setupCalls, drawCalls]
    · have h1 : st.setup_done = true := by simpa using h1
      by_cases hel : st.time_since_last_frame + dt > 1 / st.target_frame_rate ∨
          st.frame_count = 0
      · by_cases hdr : st.looping = true ∨ st.redraw.truthy = true
        · rw [update_draw st dt h1 hel hdr]
          simp [hookCalls, setupCalls, drawCalls, setupCalls_append, drawCalls_append,
            setupCalls_map, drawCalls_map]
        · rw [update_nodraw st dt h1 hel hdr]
          simp [hookCalls, setupCalls, drawCalls, setupCalls_append, drawCalls_append,
            setupCalls_map, drawCalls_map]
      · rw [update_skip st dt h1 hel]
        simp [hookCalls, setupCalls, drawCalls]
  | noLoopOp => simp [step, no_loop, hookCalls, setupCalls, drawCalls]
  | loopOp => simp [step, loop, hookCalls, setupCalls, drawCalls]
  | redrawOp =>
    show (redraw st).frame_count = st.frame_count + (hookCalls [] : ℤ)
    rw [redraw]
    split_ifs <;> simp [hookCalls, setupCalls, drawCalls]
  | setFrameRateOp fm => simp [step, set_frame_rate, hookCalls, setupCalls, drawCalls]
  | enqueueOp f e => simp [step, enqueue, hookCalls, setupCalls, drawCalls]

theorem step_frame_count_mono (st : State) (op : Op) :
    st.frame_count ≤ (step st op).1.frame_count := by
  rw [step_frame_count st op]
  omega

theorem runOps_frame_count (st : State) (ops : List Op) :
    (runOps st ops).1.frame_count = st.frame_count + (hookCalls (runOps st ops).2 : ℤ) := by
  induction ops generalizing st with
  | nil => simp [runOps, hookCalls, setupCalls, drawCalls]
  | cons op rest ih =>
    simp only [runOps]
    rw [hookCalls_append, ih (step st op).1, step_frame_count]
    push_cast
    ring

/-- C5: `frame_count` starts at -1, is non-decreasing across every sequence of
operations, and each operation changes it by exactly the number of setup/draw
hook invocations that operation performs (one per invocation, and nothing else
ever changes it). -/
theorem frame_count_spec :
    initState.frame_count = -1 ∧
    (∀ (st : State) (op : Op),
      (step st op).1.frame_count = st.frame_count + (hookCalls (step st op).2 : ℤ)) ∧
    (∀ (st : State) (op : Op), st.frame_count ≤ (step st op).1.frame_count) ∧
    (∀ ops : List Op,
      (runOps initState ops).1.frame_count = -1 + (hookCalls (runOps initState ops).2 : ℤ)) :=
  ⟨rfl, step_frame_count, step_frame_count_mono, fun ops => runOps_frame_count initState ops⟩

/-- Witness for `frame_count_spec` at a concrete state and operation
sequence. -/
theorem frame_count_spec_witness :
    (step initState Op.noLoopOp).1.frame_count =
      initState.frame_count + (hookCalls (step initState Op.noLoopOp).2 : ℤ) ∧
    (runOps initState [Op.updateOp 1, Op.noLoopOp, Op.updateOp 1]).1.frame_count =
      -1 + (hookCalls (runOps initState [Op.updateOp 1, Op.noLoopOp, Op.updateOp 1]).2 : ℤ) :=
  ⟨frame_count_spec.2.1 initState Op.noLoopOp,
   frame_count_spec.2.2.2 [Op.updateOp 1, Op.noLoopOp, Op.updateOp 1]⟩

/-! Claim C6: FIFO drain of the event queue on eligible ticks. -/

/-- C6: on every eligible tick after setup (accumulated time above the frame
interval, or `frame_count == 0`), the queued handler callbacks are invoked
exactly once each, with their payloads, in arrival (FIFO) order — the
handler-call subsequence of the tick's trace is exactly the queue contents —
and the queue is empty immediately afterwards. -/
theorem event_queue_fifo (st : State) (dt : ℚ) (h1 : st.setup_done = true)
    (h2 : st.time_since_last_frame + dt > 1 / st.target_frame_rate ∨ st.frame_count = 0) :
    handlerCallsOf (update st dt).2 =
      st.handler_queue.map (fun p => Call.handlerCall p.1 p.2) ∧
    (update st dt).1.handler_queue = [] := by
  by_cases hdr : st.looping = true ∨ st.redraw.truthy = true
  · rw [update_draw st dt h1 h2 hdr]
    exact ⟨by simp [handlerCallsOf, handlerCallsOf_append, handlerCallsOf_map], rfl⟩
  · rw [update_nodraw st dt h1 h2 hdr]
    exact ⟨by simp [handlerCallsOf, handlerCallsOf_append, handlerCallsOf_map], rfl⟩

/-- A concrete state whose queue holds three events E1, E2, E3 in arrival
order. -/
def queueState : State where
  frame_count := 5
  looping := true
  redraw := RedrawVal.bool false
  setup_done := true
  target_frame_rate := 1
  time_since_last_frame := 0
  frame_rate := 30
  handler_queue := [(1, 10), (2, 20), (3, 30)]

/-- Witness for `event_queue_fifo`: E1, E2, E3 are dispatched in exactly that
order and the queue is empty afterwards. -/
theorem event_queue_fifo_witness :
    handlerCallsOf (update queueState 2).2 =
      [Call.handlerCall 1 10, Call.handlerCall 2 20, Call.handlerCall 3 30] ∧
    (update queueState 2).1.handler_queue = [] := by
  have h := event_queue_fifo queueState 2 rfl (Or.inl (by norm_num [queueState]))
  exact ⟨h.1.trans rfl, h.2⟩

/-! Claim C7: the renderer pre/post bracket on every tick. -/

theorem preRenders_update (st : State) (dt : ℚ) : preRenders (update st dt).2 = 1 := by
  rw [update]
  split_ifs <;> simp [preRenders, preRenders_append, preRenders_map]

theorem postRenders_update (st : State) (dt : ℚ) : postRenders (update st dt).2 = 1 := by
  rw [update]
  split_ifs <;> simp [postRenders, postRenders_append, postRenders_map]

theorem head_update (st : State) (dt : ℚ) :
    ((update st dt).2).head? = some Call.preRender := by
  rw [update]
  split_ifs <;> rfl

theorem getLast_cons_cons_concat (a b c : Call) (l : List Call) :
    (a :: b :: (l ++ [c])).getLast? = some c := by
  rw [show a :: b :: (l ++ [c]) = (a :: b :: l) ++ [c] by simp, List.getLast?_concat]

theorem getLast_cons_concat (a c : Call) (l : List Call) :
    (a :: (l ++ [c])).getLast? = some c := by
  rw [show a :: (l ++ [c]) = (a :: l) ++ [c] by simp, List.getLast?_concat]

theorem getLast_update (st : State) (dt : ℚ) :
    ((update st dt).2).getLast? = some Call.postRender := by
  rw [update]
  split_ifs
  · rfl
  · exact getLast_cons_cons_concat _ _ _ _
  · exact getLast_cons_concat _ _ _
  · rfl

/-- C7: every `update(dt)` tick calls `renderer.pre_render` exactly once, as
the first collaborator call, and `renderer.post_render` exactly once, as the
last; and on a tick where setup has already run, `frame_count != 0` and the
frame is not yet due, the tick is a pass-through that still makes both
renderer calls and changes nothing except accumulating
`time_since_last_frame` and updating the reported `frame_rate`. -/
theorem renderer_bracket (st : State) (dt : ℚ) :
    preRenders (update st dt).2 = 1 ∧
    postRenders (update st dt).2 = 1 ∧
    ((update st dt).2).head? = some Call.preRender ∧
    ((update st dt).2).getLast? = some Call.postRender ∧
    (st.setup_done = true → st.frame_count ≠ 0 →
      ¬(st.time_since_last_frame + dt > 1 / st.target_frame_rate) →
      update st dt =
        ({ st with
            frame_rate := pyInt (1 / (dt + 1 / 10000)),
            time_since_last_frame := st.time_since_last_frame + dt },
         [Call.preRender, Call.postRender])) :=
  ⟨preRenders_update st dt, postRenders_update st dt, head_update st dt, getLast_update st dt,
   fun h1 h2 h3 => update_skip st dt h1 (not_or.mpr ⟨h3, h2⟩)⟩

/-- A concrete post-setup state that is not due for a frame at `dt = 1/2`. -/
def idleState : State where
  frame_count := 5
  looping := true
  redraw := RedrawVal.bool false
  setup_done := true
  target_frame_rate := 1
  time_since_last_frame := 0
  frame_rate := 30
  handler_queue := []

/-- Witness for `renderer_bracket`: the not-due tick at a concrete state is a
pass-through with exactly the two renderer calls. -/
theorem renderer_bracket_witness :
    update idleState (1 / 2) =
      ({ idleState with
          frame_rate := pyInt (1 / (1 / 2 + 1 / 10000)),
          time_since_last_frame := idleState.time_since_last_frame + 1 / 2 },
       [Call.preRender, Call.postRender]) :=
  (renderer_bracket idleState (1 / 2)).2.2.2.2 rfl (by decide) (by norm_num [idleState])

/-! Claim C8: `exit` orders platform shutdown before process termination. -/

/-- C8: `exit(*args, **kwargs)` makes exactly two collaborator calls: the
first is the platform shutdown request `pyglet.app.exit()` and the last is
process termination `builtins.exit` with the given positional and keyword
arguments passed through, so shutdown strictly precedes termination. -/
theorem exit_order (args : List Nat) (kwargs : List (String × Nat)) :
    (exit args kwargs).head? = some ExitCall.pyglet_app_exit ∧
    (exit args kwargs).getLast? = some (ExitCall.builtins_exit args kwargs) ∧
    (exit args kwargs).length = 2 ∧
    ExitCall.pyglet_app_exit ≠ ExitCall.builtins_exit args kwargs :=
  ⟨rfl, rfl, rfl, by simp⟩

/-- Witness for `exit_order` at concrete arguments. -/
theorem exit_order_witness :
    (exit [5] [("code", 1)]).head? = some ExitCall.pyglet_app_exit ∧
    (exit [5] [("code", 1)]).getLast? = some (ExitCall.builtins_exit [5] [("code", 1)]) ∧
    ExitCall.pyglet_app_exit ≠ ExitCall.builtins_exit [5] [("code", 1)] :=
  ⟨(exit_order [5] [("code", 1)]).1, (exit_order [5] [("code", 1)]).2.1,
   (exit_order [5] [("code", 1)]).2.2.2⟩

/-! Claim C9: handler arity normalization at registration time. -/

/-- C9: a handler declared with zero parameters is wrapped so that the
registered function accepts the event payload (indeed any arguments) but
invokes the original with zero arguments and returns its result; a handler
with one or more declared parameters is registered unmodified; and the
registration loop in `run` stores `fix_handler_interface` of the discovered
handler in the registry, so the wrapping happens once, at registration time. -/
theorem handler_interface_spec (f : PyFunc) :
    (f.argcount = 0 →
      (fix_handler_interface f).argcount = 0 ∧
      ∀ args : List Nat, (fix_handler_interface f).impl args = f.impl []) ∧
    (f.argcount ≠ 0 → fix_handler_interface f = f) ∧
    (∀ (main : String → Option PyFunc) (handlers : String → PyFunc)
        (name : String) (g : PyFunc),
      name ∈ handler_names → main name = some g →
      register_handlers main handlers name = fix_handler_interface g) := by
  refine ⟨fun h0 => ?_, fun h1 => ?_, fun main handlers name g hmem hmain => ?_⟩
  · rw [fix_handler_interface, if_pos h0]
    exact ⟨rfl, fun args => rfl⟩
  · rw [fix_handler_interface, if_neg h1]
  · simp [register_handlers, hmem, hmain]

/-- A handler declared with zero parameters, returning 7. -/
def zeroArgHandler : PyFunc where
  argcount := 0
  impl := fun _ => 7

/-- A handler declared with one parameter. -/
def oneArgHandler : PyFunc where
  argcount := 1
  impl := fun args => args.length

/-- A host program defining only `key_press`, as a zero-argument handler. -/
def hostMain : String → Option PyFunc :=
  fun name => if name = "key_press" then some zeroArgHandler else none

/-- A default registry. -/
def defaultRegistry : String → PyFunc := fun _ => oneArgHandler

/-- Witness for `handler_interface_spec` at concrete handlers. -/
theorem handler_interface_spec_witness :
    (fix_handler_interface zeroArgHandler).impl [3] = zeroArgHandler.impl [] ∧
    fix_handler_interface oneArgHandler = oneArgHandler ∧
    register_handlers hostMain defaultRegistry "key_press" =
      fix_handler_interface zeroArgHandler :=
  ⟨((handler_interface_spec zeroArgHandler).1 rfl).2 [3],
   (handler_interface_spec oneArgHandler).2.1 (by decide),
   (handler_interface_spec oneArgHandler).2.2 hostMain defaultRegistry "key_press"
     zeroArgHandler (by decide) rfl⟩

/-! Claim C10: the module-initialization binding of the global `redraw`. -/

/-- C10: at module initialization the global name `redraw` ends up bound to
the `redraw` function object (rebinding the earlier `False`), which is truthy;
the first (setup) tick does not touch it and `no_loop` does not touch it, so
in a run where looping is disabled during setup and `redraw()` is never
called, the first eligible tick after setup still invokes draw exactly once,
resets the slot to `False`, and later ticks do not draw again. -/
theorem initial_redraw_truthy :
    initState.redraw = RedrawVal.fnObj ∧
    RedrawVal.truthy initState.redraw = true ∧
    (∀ dt : ℚ, (update initState dt).1.redraw = RedrawVal.fnObj) ∧
    (∀ st : State, (no_loop st).redraw = st.redraw) ∧
    (∀ st : State, st.setup_done = true → st.looping = false →
      st.redraw = RedrawVal.fnObj →
      ∀ dt : ℚ,
        (st.time_since_last_frame + dt > 1 / st.target_frame_rate ∨ st.frame_count = 0) →
        drawCalls (update st dt).2 = 1 ∧
        (update st dt).1.redraw = RedrawVal.bool false ∧
        ∀ dt2 : ℚ, drawCalls (update (update st dt).1 dt2).2 = 0) := by
  refine ⟨rfl, rfl, fun dt => ?_, fun st => rfl, fun st hsd hl hr dt hel => ?_⟩
  · rw [update_setup initState dt rfl]
    rfl
  · have hdr : st.looping = true ∨ st.redraw.truthy = true := Or.inr (by rw [hr]; rfl)
    rw [update_draw st dt hsd hel hdr]
    refine ⟨by simp [drawCalls, drawCalls_append, drawCalls_map], rfl, fun dt2 => ?_⟩
    exact drawCalls_update_of_stopped _ dt2 hsd hl rfl

/-- A concrete state as left by a first tick whose setup called `no_loop()`:
setup done, looping disabled, the global `redraw` still holding the function
object, `frame_count = 0`. -/
def afterNoLoopState : State where
  frame_count := 0
  looping := false
  redraw := RedrawVal.fnObj
  setup_done := true
  target_frame_rate := 60
  time_since_last_frame := 1 / 100
  frame_rate := 30
  handler_queue := []

/-- Witness for `initial_redraw_truthy`: with looping disabled and `redraw()`
never called, the first eligible tick after setup draws exactly once and the
next tick does not. -/
theorem initial_redraw_truthy_witness :
    drawCalls (update afterNoLoopState (1 / 100)).2 = 1 ∧
    (update afterNoLoopState (1 / 100)).1.redraw = RedrawVal.bool false ∧
    drawCalls (update (update afterNoLoopState (1 / 100)).1 (1 / 100)).2 = 0 := by
  have h := initial_redraw_truthy.2.2.2.2 afterNoLoopState rfl rfl rfl (1 / 100) (Or.inr rfl)
  exact ⟨h.1, h.2.1, h.2.2 (1 / 100)⟩

end P5
